import Mathlib

/-!
Shallow embedding of the step-execution engine of `pipeline.py`
(class `Pipeline` plus the module-level helpers `create_folder`):
the step registry, `get_step_title_number`, `build_action_log`,
`run`, `run_step`, `create_base_folder_structure` and `finalise`,
together with the JSON serialization used by `finalise`
(`json.dumps(..., sort_keys=True, indent=4)`).

Python values flowing through the engine (registry keys, keyword
arguments, action outputs, action logs) are modelled by the inductive
type `Value`; Python dicts are ordered association lists with
replace-in-place update, exactly as Python preserves insertion order.
Exceptions are modelled with `Except PyError`.  Wall-clock time is
modelled by a tick counter threaded through the runner together with a
`clock : Nat → Int` sampling function standing for
`datetime.datetime.now().isoformat()` (each `get_current_time()` call
samples the clock at the current tick and advances it; an invoked step
function reports how many ticks it consumed).  Console output
(`rich.console`) has no observable effect on the run record and is not
modelled, except that the `console` object itself is inserted into the
keyword arguments (`Value.console`).
-/

/-- A Python runtime value as used by the engine: JSON-like data plus the
opaque `rich.console.Console` object that `run_step` inserts into the
keyword arguments. -/
inductive Value where
  | null : Value
  | bool : Bool → Value
  | int : Int → Value
  | str : String → Value
  | list : List Value → Value
  | obj : List (String × Value) → Value
  | console : Value

/-- A Python exception, as raised by the engine or by an invoked step
function.  `keyError` models `KeyError` raised by a failed dict lookup
(in particular the lookup of an unknown step identifier, the spec's
`UnknownStepError`); `typeError` models `TypeError` (e.g. from
`json.dumps` on an unserializable object); `userError` stands for any
exception raised inside a step function. -/
inductive PyError where
  | keyError : Value → PyError
  | typeError : String → PyError
  | userError : String → PyError

/-- One segment of a Python format string such as `"Step {x}"`: either a
literal piece or a `\x7bname\x7d` replacement field.  A `title_template` is
modelled pre-parsed as a list of such parts. -/
inductive TemplatePart where
  | lit : String → TemplatePart
  | field : String → TemplatePart

/-- A Python callable as stored in the step registry: its `__name__` and
its behaviour.  `impl` receives the keyword-argument dict and either
raises or returns the action output together with the number of clock
ticks the call consumed. -/
structure PyFunction where
  name : String
  impl : List (String × Value) → Except PyError (Value × Nat)

/-- One entry of the steps registry (`self.steps[key]`), a dict with the
keys used by `pipeline.py`. -/
structure StepDescriptor where
  function : PyFunction
  title_template : List TemplatePart
  is_multi : Bool
  multi_param : String
  multi_options : List Value
  has_progress : Bool
  list_item : String

/-- The mutable attributes of a `Pipeline` instance that the modelled
methods read or write, plus the set of files written so far (`files`
records each `open(path, "w").write(content)`; only `finalise` writes a
file).  `action_log_steps` is `self.action_logs["steps"]`; the remaining
`action_logs` entries set by `initialise` are kept as separate fields and
reassembled by `finalise`. -/
structure PipelineState where
  steps_registry : List (Value × StepDescriptor)
  action_log_steps : List (String × Value)
  kwargs : List (String × Value)
  config : Value
  output_path : String
  log_path : String
  repository_name : String
  pipeline_name : String
  pipeline_version : String
  system_info : Value
  started_at : Value
  verbose : Bool
  files : List (String × String)

/-- Python dict lookup `d[k]` on a string-keyed dict, returning the first
(and in a real dict only) binding. -/
def dictGet {α : Type} : List (String × α) → String → Option α
  | [], _ => none
  | (k, v) :: rest, key => if k = key then some v else dictGet rest key

/-- Python dict assignment `d[k] = v`: replace in place if the key is
present (keeping its position, as Python dicts preserve insertion
order), otherwise append. -/
def dictSet {α : Type} : List (String × α) → String → α → List (String × α)
  | [], key, v => [(key, v)]
  | (k, w) :: rest, key, v =>
    if k = key then (key, v) :: rest else (k, w) :: dictSet rest key v

mutual
/-- Structural equality of Python values (`==` on the modelled values);
used for dict lookups keyed by a `Value`. -/
def valueBeq : Value → Value → Bool
  | Value.null, Value.null => true
  | Value.bool a, Value.bool b => a == b
  | Value.int a, Value.int b => a == b
  | Value.str a, Value.str b => a == b
  | Value.list xs, Value.list ys => valueListBeq xs ys
  | Value.obj fs, Value.obj gs => valueFieldsBeq fs gs
  | Value.console, Value.console => true
  | _, _ => false

def valueListBeq : List Value → List Value → Bool
  | [], [] => true
  | x :: xs, y :: ys => valueBeq x y && valueListBeq xs ys
  | _, _ => false

def valueFieldsBeq : List (String × Value) → List (String × Value) → Bool
  | [], [] => true
  | (k, v) :: fs, (l, w) :: gs => k == l && valueBeq v w && valueFieldsBeq fs gs
  | _, _ => false
end

/-- Lookup in the steps registry `self.steps[key]`, whose keys are
arbitrary Python values (the step dictionaries in practice use string
keys; an `int` key and a `str` key are distinct, as in Python). -/
def lookupStep : List (Value × StepDescriptor) → Value → Option StepDescriptor
  | [], _ => none
  | (k, d) :: rest, key => if valueBeq k key then some d else lookupStep rest key

mutual
/-- Python `repr()` on the modelled values (used by `str()` on
containers). -/
def pyRepr : Value → String
  | Value.null => "None"
  | Value.bool true => "True"
  | Value.bool false => "False"
  | Value.int i => toString i
  | Value.str s => "'" ++ s ++ "'"
  | Value.list xs => "[" ++ String.intercalate ", " (pyReprList xs) ++ "]"
  | Value.obj fs => "\x7b" ++ String.intercalate ", " (pyReprFields fs) ++ "\x7d"
  | Value.console => "<rich.console.Console object>"

def pyReprList : List Value → List String
  | [] => []
  | x :: xs => pyRepr x :: pyReprList xs

def pyReprFields : List (String × Value) → List String
  | [] => []
  | (k, v) :: fs => ("'" ++ k ++ "': " ++ pyRepr v) :: pyReprFields fs
end

/-- Python `str()` on the modelled values (`str(step_number)` at
`pipeline.py` lines 345 and 366, and replacement-field rendering in
`str.format`). -/
def pyStr : Value → String
  | Value.str s => s
  | v => pyRepr v

/-- Field access `v[k]` on an object value, as an `Option`. -/
def getField : Value → String → Option Value
  | Value.obj fs, k => dictGet fs k
  | _, _ => none

/-- The `substep_number` argument (`int` or `None` in Python) rendered as
a `Value` for the action log. -/
def optIntValue : Option Int → Value
  | none => Value.null
  | some k => Value.int k

/-- `str.format(**kwargs)` on a pre-parsed template: literal parts pass
through, a replacement field looks its name up in the keyword dict
(raising `KeyError` when absent, as Python does) and renders the value
with `str()`. -/
def formatTemplate : List TemplatePart → List (String × Value) → Except PyError String
  | [], _ => Except.ok ""
  | TemplatePart.lit s :: rest, kwargs =>
    match formatTemplate rest kwargs with
    | Except.error e => Except.error e
    | Except.ok r => Except.ok (s ++ r)
  | TemplatePart.field n :: rest, kwargs =>
    match dictGet kwargs n with
    | none => Except.error (PyError.keyError (Value.str n))
    | some v =>
      match formatTemplate rest kwargs with
      | Except.error e => Except.error e
      | Except.ok r => Except.ok (pyStr v ++ r)

/-- `Pipeline.get_step_title_number` (lines 327-346).  The Python code
tests `if substep_number:`, i.e. truthiness: both `None` and `0` take
the bare-string branch. -/
def get_step_title_number (step_number : Value) (substep_number : Option Int) : String :=
  match substep_number with
  | some s =>
    if s != 0 then pyStr step_number ++ "." ++ toString s
    else pyStr step_number
  | none => pyStr step_number

/-- Python truthiness of the optional `action_name` keyword argument of
`build_action_log` (`if not action_name:` at line 314 — both `None` and
the empty string are falsy). -/
def nameFalsy : Option String → Bool
  | none => true
  | some s => s.isEmpty

/-- `Pipeline.build_action_log` (lines 300-324).  When `action_name` is
falsy the name is recovered from the registered callable via the raw-key
lookup `self.steps[step_number]["function"].__name__` (line 315; a
`KeyError` when the key is absent).  `now` is the value sampled from the
clock by the `get_current_time()` call at line 321, i.e. at the moment
the log is built. -/
def Pipeline.build_action_log (st : PipelineState) (step_number : Value)
    (substep_number : Option Int) (started_at : Value) (additional_args : Value)
    (action_output : Value) (action_name : Option String) (now : Value) :
    Except PyError Value :=
  match (if nameFalsy action_name then
           match lookupStep st.steps_registry step_number with
           | some d => Except.ok d.function.name
           | none => Except.error (PyError.keyError step_number)
         else Except.ok (action_name.getD "")) with
  | Except.error e => Except.error e
  | Except.ok aname =>
    Except.ok (Value.obj
      [("step", step_number),
       ("substep_number", optIntValue substep_number),
       ("step_action", Value.str aname),
       ("started_at", started_at),
       ("completed_at", now),
       ("arguments", additional_args),
       ("action_output", action_output)])

/-- `Pipeline.run` (lines 349-375).  `started_at` samples the clock at
the current tick (line 362); the title announcement at line 364 looks
the descriptor up under the raw `step_number` key and formats its
`title_template` with the merged keyword arguments (either lookup or
format may raise); the function itself is fetched under the
stringified key `str(step_number)` (line 366) and invoked (the
`console.status` spinner for steps without `has_progress` only affects
console output, so both branches of line 368 invoke identically); the
action log is then built, its `completed_at` sampling the clock after
the invocation's ticks have elapsed. -/
def Pipeline.run (st : PipelineState) (clock : Nat → Int) (tick : Nat)
    (step_number : Value) (substep_number : Option Int) (additional_args : Value)
    (kwargs : List (String × Value)) : Except PyError (String × Value × Nat) :=
  let started_at := Value.int (clock tick)
  let step_title_number := get_step_title_number step_number substep_number
  match lookupStep st.steps_registry step_number with
  | none => Except.error (PyError.keyError step_number)
  | some descT =>
    match formatTemplate descT.title_template kwargs with
    | Except.error e => Except.error e
    | Except.ok _ =>
      match lookupStep st.steps_registry (Value.str (pyStr step_number)) with
      | none => Except.error (PyError.keyError (Value.str (pyStr step_number)))
      | some desc =>
        match desc.function.impl kwargs with
        | Except.error e => Except.error e
        | Except.ok (action_output, d) =>
          match Pipeline.build_action_log st step_number substep_number started_at
              additional_args action_output none (Value.int (clock (tick + 1 + d))) with
          | Except.error e => Except.error e
          | Except.ok log => Except.ok (step_title_number, log, tick + 1 + d + 1)

/-- The fan-out loop of `Pipeline.run_step` (lines 401-404): for each
value in `multi_options`, in order, assign `kwargs[multi_param] = item`
(the mutation persists into later iterations) and invoke the registered
function directly, collecting its raw return value; an exception
propagates immediately and the partial list is discarded. -/
def runMultiLoop (f : PyFunction) (param : String) (options : List Value)
    (kwargs : List (String × Value)) (tick : Nat) :
    Except PyError (List Value × Nat) :=
  match options with
  | [] => Except.ok ([], tick)
  | item :: rest =>
    let kw := dictSet kwargs param item
    match f.impl kw with
    | Except.error e => Except.error e
    | Except.ok (out, d) =>
      match runMultiLoop f param rest kw (tick + d) with
      | Except.error e => Except.error e
      | Except.ok (outs, tick2) => Except.ok (out :: outs, tick2)

/-- The keyword-argument dict assembled at the top of `run_step`
(lines 390-393): a copy of `self.kwargs` extended with `config`,
`output_path` and the console object. -/
def mergedKwargs (st : PipelineState) : List (String × Value) :=
  dictSet (dictSet (dictSet st.kwargs "config" st.config)
    "output_path" (Value.str st.output_path)) "console" Value.console

/-- `Pipeline.run_step` (lines 378-411).  The descriptor is fetched under
`str(step_number)` (a `KeyError` — the spec's `UnknownStepError` — when
absent).  A fan-out step runs `runMultiLoop` and returns the raw
outputs, leaving `self.action_logs` untouched; a singular step delegates
to `run` and inserts the resulting action log into
`self.action_logs["steps"]` under the step title number.  The result is
the error or output list, the post-call state, and the clock tick
reached. -/
def Pipeline.run_step (st : PipelineState) (clock : Nat → Int) (tick : Nat)
    (step_number : Value) :
    Except PyError (List Value) × PipelineState × Nat :=
  let kwargs := mergedKwargs st
  match lookupStep st.steps_registry (Value.str (pyStr step_number)) with
  | none => (Except.error (PyError.keyError (Value.str (pyStr step_number))), st, tick)
  | some desc =>
    if desc.is_multi then
      match runMultiLoop desc.function desc.multi_param desc.multi_options kwargs tick with
      | Except.error e => (Except.error e, st, tick)
      | Except.ok (items, tick2) => (Except.ok items, st, tick2)
    else
      match Pipeline.run st clock tick step_number none Value.null kwargs with
      | Except.error e => (Except.error e, st, tick)
      | Except.ok (title, log, tick2) =>
        (Except.ok [log],
         { st with action_log_steps := dictSet st.action_log_steps title log },
         tick2)

/-- The filesystem as the set of existing folder paths, in creation
order. -/
abbrev FS := List String

/-- Module-level `create_folder` (lines 31-59): if the path does not
exist it is created (`mkdir(parents=True)`; the four base folders are
single relative path segments, so no separate parent entries arise) and
the status is `"folders_created"`, otherwise nothing changes and the
status is `"folders_in_existence"`.  `verbose` only controls console
echo. -/
def create_folder (fs : FS) (folder_path : String) (verbose : Bool) : String × FS :=
  if folder_path ∉ fs then ("folders_created", fs ++ [folder_path])
  else ("folders_in_existence", fs)

/-- `action_log[folder_status].append(folder)` (line 436): append a value
to the list stored under a key of an object. -/
def appendToListKey (v : Value) (key : String) (item : Value) : Value :=
  match v with
  | Value.obj fields =>
    Value.obj (fields.map (fun kv =>
      if kv.1 = key then
        (kv.1, match kv.2 with
               | Value.list xs => Value.list (xs ++ [item])
               | w => w)
      else kv))
  | other => other

/-- The loop of `create_base_folder_structure` (lines 434-436). -/
def createBaseFoldersGo (verbose : Bool) :
    List String → Value → FS → Value × FS
  | [], action_log, fs => (action_log, fs)
  | f :: rest, action_log, fs =>
    let r := create_folder fs f verbose
    createBaseFoldersGo verbose rest (appendToListKey action_log r.1 (Value.str f)) r.2

/-- `Pipeline.create_base_folder_structure` (lines 418-437): starting
from an action log with empty `folders_created` and
`folders_in_existence` lists, create each of `input`, `output`, `tmp`,
`log` in turn, recording each folder under the status
`create_folder` returned for it. -/
def create_base_folder_structure (fs : FS) (verbose : Bool) : Value × FS :=
  createBaseFoldersGo verbose ["input", "output", "tmp", "log"]
    (Value.obj [("folders_created", Value.list []),
                ("folders_in_existence", Value.list []),
                ("completed_at", Value.null)]) fs

/-- A lowercase hexadecimal digit. -/
def hexDigitChar (n : Nat) : Char :=
  if n < 10 then Char.ofNat (48 + n) else Char.ofNat (87 + n)

/-- Four-digit lowercase hexadecimal rendering, as in Python's `\uXXXX`
escapes. -/
def toHex4 (n : Nat) : String :=
  String.mk [hexDigitChar (n / 4096 % 16), hexDigitChar (n / 256 % 16),
             hexDigitChar (n / 16 % 16), hexDigitChar (n % 16)]

/-- JSON string escaping as `json.dumps` performs it with the default
`ensure_ascii=True`: backslash, double quote and the short escapes, any
other character outside the printable ASCII range `0x20`-`0x7e` as
`\uXXXX` (astral code points as a surrogate pair). -/
def escapeJsonChar (c : Char) : String :=
  if c = Char.ofNat 34 then "\\\""
  else if c = Char.ofNat 92 then "\\\\"
  else if c = Char.ofNat 10 then "\\n"
  else if c = Char.ofNat 9 then "\\t"
  else if c = Char.ofNat 13 then "\\r"
  else if c = Char.ofNat 8 then "\\b"
  else if c = Char.ofNat 12 then "\\f"
  else if c.toNat < 32 ∨ c.toNat > 126 then
    if c.toNat < 65536 then "\\u" ++ toHex4 c.toNat
    else
      let v := c.toNat - 65536
      "\\u" ++ toHex4 (55296 + v / 1024) ++ "\\u" ++ toHex4 (56320 + v % 1024)
  else String.singleton c

/-- Escape a whole string for a JSON string literal. -/
def escapeJsonString (s : String) : String :=
  String.join (s.toList.map escapeJsonChar)

/-- Lexicographic code-point comparison of character lists — the order
Python compares strings by (`sort_keys` sorts dict keys with it). -/
def charListLe : List Char → List Char → Bool
  | [], _ => true
  | _ :: _, [] => false
  | a :: as, b :: bs =>
    if a.toNat < b.toNat then true
    else if b.toNat < a.toNat then false
    else charListLe as bs

/-- String comparison by code points, as Python orders strings. -/
def strLe (a b : String) : Bool :=
  charListLe a.toList b.toList

/-- Insert a key-value pair into a key-sorted field list, keeping it
sorted (stable, as Python's `sorted`). -/
def insertSortedField (p : String × Value) : List (String × Value) → List (String × Value)
  | [] => [p]
  | q :: rest => if strLe p.1 q.1 then p :: q :: rest else q :: insertSortedField p rest

/-- Sort an object's fields by key (the effect of `sort_keys=True` on one
dict level). -/
def sortFieldsByKey : List (String × Value) → List (String × Value)
  | [] => []
  | p :: rest => insertSortedField p (sortFieldsByKey rest)

mutual
/-- Recursively sort every object's fields by key, as
`json.dumps(..., sort_keys=True)` renders every dict in key order. -/
def sortValue : Value → Value
  | Value.obj fs => Value.obj (sortFieldsByKey (sortFieldsGo fs))
  | Value.list xs => Value.list (sortListGo xs)
  | v => v

def sortListGo : List Value → List Value
  | [] => []
  | x :: xs => sortValue x :: sortListGo xs

def sortFieldsGo : List (String × Value) → List (String × Value)
  | [] => []
  | (k, v) :: fs => (k, sortValue v) :: sortFieldsGo fs
end

/-- `n` spaces, for `indent=4` rendering. -/
def nspaces (n : Nat) : String :=
  String.mk (List.replicate n ' ')

mutual
/-- The rendering core of `json.dumps(..., indent=4)` at nesting level
`lvl`, assuming object fields are already in the intended (sorted)
order.  `none` models the `TypeError` Python raises on an object that is
not JSON serializable (here: the console object). -/
def dumpsVal (lvl : Nat) : Value → Option String
  | Value.null => some "null"
  | Value.bool true => some "true"
  | Value.bool false => some "false"
  | Value.int i => some (toString i)
  | Value.str s => some ("\"" ++ escapeJsonString s ++ "\"")
  | Value.list [] => some "[]"
  | Value.list (x :: xs) =>
    match dumpsListItems lvl (x :: xs) with
    | none => none
    | some parts =>
      some ("[\n" ++
        String.intercalate ",\n" (parts.map (fun p => nspaces ((lvl + 1) * 4) ++ p)) ++
        "\n" ++ nspaces (lvl * 4) ++ "]")
  | Value.obj [] => some "\x7b\x7d"
  | Value.obj (f :: fs) =>
    match dumpsObjItems lvl (f :: fs) with
    | none => none
    | some parts =>
      some ("\x7b\n" ++
        String.intercalate ",\n" (parts.map (fun p => nspaces ((lvl + 1) * 4) ++ p)) ++
        "\n" ++ nspaces (lvl * 4) ++ "\x7d")
  | Value.console => none

def dumpsListItems (lvl : Nat) : List Value → Option (List String)
  | [] => some []
  | x :: xs =>
    match dumpsVal (lvl + 1) x with
    | none => none
    | some s =>
      match dumpsListItems lvl xs with
      | none => none
      | some rest => some (s :: rest)

def dumpsObjItems (lvl : Nat) : List (String × Value) → Option (List String)
  | [] => some []
  | (k, v) :: fs =>
    match dumpsVal (lvl + 1) v with
    | none => none
    | some s =>
      match dumpsObjItems lvl fs with
      | none => none
      | some rest => some (("\"" ++ escapeJsonString k ++ "\": " ++ s) :: rest)
end

/-- `json.dumps(v, sort_keys=True, indent=4)` as used at line 271. -/
def json_dumps_sorted (v : Value) : Option String :=
  dumpsVal 0 (sortValue v)

/-- The complete `self.action_logs` dict as it stands when `finalise`
serializes it: the entries set by `initialise` (lines 226-233, in
insertion order) followed by `dependencies` and `completed_at` as
appended by `finalise` (lines 263-264). -/
def Pipeline.finalLogs (st : PipelineState) (dependencies : Value)
    (completed_at : String) : Value :=
  Value.obj
    [("started_at", st.started_at),
     ("steps", Value.obj st.action_log_steps),
     ("repository_name", Value.str st.repository_name),
     ("pipeline_name", Value.str st.pipeline_name),
     ("pipeline_version", Value.str st.pipeline_version),
     ("system_info", st.system_info),
     ("dependencies", dependencies),
     ("completed_at", Value.str completed_at)]

/-- `Pipeline.finalise` (lines 256-273).  The dependency bundle and the
completion timestamp come from external collaborators
(`bundle_dependency_list` reads dependency manifests;
`get_current_time` samples the wall clock) and are parameters, as is
`sha256hex`, the hex digest function `hashlib.sha256(...).hexdigest()`
of the Python standard library.  The log filename is
`log_path/repository_name-<sha256 of completed_at>.json` and the file
content is the serialized run log; the elapsed-time computation at
lines 265-267 only feeds a console message and is not modelled. -/
def Pipeline.finalise (st : PipelineState) (dependencies : Value)
    (completed_at : String) (sha256hex : String → String) :
    Except PyError (Value × PipelineState) :=
  let logs := Pipeline.finalLogs st dependencies completed_at
  let datehash := sha256hex completed_at
  let logfilename := st.log_path ++ "/" ++ st.repository_name ++ "-" ++ datehash ++ ".json"
  match json_dumps_sorted logs with
  | none => Except.error (PyError.typeError "Object is not JSON serializable")
  | some content =>
    Except.ok (logs, { st with files := st.files ++ [(logfilename, content)] })

/-- Whether `entry` is an action-log object whose `arguments` dict maps
`param` to `opt` — the property the fan-out claim asserts of each entry
returned by `run_step`. -/
def argumentsMapsTo (entry : Value) (param : String) (opt : Value) : Bool :=
  match getField entry "arguments" with
  | some (Value.obj args) =>
    match dictGet args param with
    | some v => valueBeq v opt
    | none => false
  | _ => false

/-- The action-log object that `run` (via `build_action_log`) produces
for a non-fan-out step registered under key `"1"`, when the invocation
returns `out` after consuming `d` ticks. -/
def singleStepLog (fname : String) (clock : Nat → Int) (tick d : Nat) (out : Value) : Value :=
  Value.obj
    [("step", Value.str "1"),
     ("substep_number", Value.null),
     ("step_action", Value.str fname),
     ("started_at", Value.int (clock tick)),
     ("completed_at", Value.int (clock (tick + 1 + d))),
     ("arguments", Value.null),
     ("action_output", out)]

/-- A concrete clock for evaluating the model on explicit inputs: the
timestamp at tick `t` is `t` itself. -/
def wClock : Nat → Int := fun t => (t : Int)

/-- A concrete stand-in for the SHA-256 hex digest function when
evaluating `finalise` on explicit inputs (the theorems are generic in
the digest function). -/
def wHash : String → String := fun s => "h" ++ s

/-- A pipeline state with an empty step registry. -/
def wEmptySt : PipelineState :=
  { steps_registry := [],
    action_log_steps := [("0", Value.null)],
    kwargs := [("verbose", Value.bool false)],
    config := Value.null,
    output_path := "output",
    log_path := "log",
    repository_name := "pipeline",
    pipeline_name := "Pipeline",
    pipeline_version := "deadbeef",
    system_info := Value.null,
    started_at := Value.str "2024-01-01T00:00:00",
    verbose := false,
    files := [] }

/-- The serialized run log of `wEmptySt` finalized with no dependencies
at a fixed completion timestamp. -/
def wContent : String :=
  (json_dumps_sorted (Pipeline.finalLogs wEmptySt Value.null "2024-01-02T03:04:05")).getD ""

/-- A registered function that ignores its arguments and returns `42`
instantly. -/
def fanoutFn : PyFunction :=
  { name := "process_locus", impl := fun _ => Except.ok (Value.int 42, 0) }

/-- A fan-out step descriptor over three loci. -/
def fanoutDesc : StepDescriptor :=
  { function := fanoutFn,
    title_template := [TemplatePart.lit "Process loci"],
    is_multi := true,
    multi_param := "locus",
    multi_options := [Value.str "chr1", Value.str "chr2", Value.str "chr3"],
    has_progress := false,
    list_item := "loci" }

/-- A pipeline state whose registry holds the fan-out step under key
`"1"`. -/
def fanoutSt : PipelineState :=
  { wEmptySt with steps_registry := [(Value.str "1", fanoutDesc)] }

/-- A registered function for the singular-step scenario. -/
def singleFn : PyFunction :=
  { name := "generate_report", impl := fun _ => Except.ok (Value.str "report done", 2) }

/-- A non-fan-out descriptor whose title template interpolates the
context variable `x`. -/
def singleDesc : StepDescriptor :=
  { function := singleFn,
    title_template := [TemplatePart.lit "Step ", TemplatePart.field "x"],
    is_multi := false,
    multi_param := "",
    multi_options := [],
    has_progress := false,
    list_item := "report" }

/-- A pipeline state whose registry holds the singular step under key
`"1"` and whose context supplies the title-template variable `x`. -/
def singleSt : PipelineState :=
  { wEmptySt with
    steps_registry := [(Value.str "1", singleDesc)],
    kwargs := [("x", Value.str "demo")] }

/-- A registered function that raises. -/
def failFn : PyFunction :=
  { name := "broken_step", impl := fun _ => Except.error (PyError.userError "boom") }

/-- A non-fan-out descriptor around the raising function. -/
def failDesc : StepDescriptor :=
  { function := failFn,
    title_template := [TemplatePart.lit "Broken"],
    is_multi := false,
    multi_param := "",
    multi_options := [],
    has_progress := false,
    list_item := "broken" }

/-- A pipeline state whose registry holds the raising step under key
`"2"` and whose run log already contains an accumulated entry. -/
def failSt : PipelineState :=
  { wEmptySt with steps_registry := [(Value.str "2", failDesc)] }

theorem dictSet_dictSet_same {α : Type} (l : List (String × α)) (k : String) (v w : α) :
    dictSet (dictSet l k v) k w = dictSet l k w := by
  induction l with
  | nil => simp [dictSet]
  | cons p rest ih =>
    obtain ⟨k1, v1⟩ := p
    by_cases h : k1 = k
    · subst h; simp [dictSet]
    · simp [dictSet, h, ih]

theorem runMultiLoop_ok (f : PyFunction) (param : String) (g : Value → Value)
    (dur : Value → Nat) (options : List Value) (kwargs : List (String × Value)) (tick : Nat)
    (hok : ∀ opt ∈ options,
      f.impl (dictSet kwargs param opt) = Except.ok (g opt, dur opt)) :
    ∃ tick2, runMultiLoop f param options kwargs tick = Except.ok (options.map g, tick2) := by
  induction options generalizing kwargs tick with
  | nil => exact ⟨tick, rfl⟩
  | cons a rest ih =>
    have ha := hok a (List.mem_cons_self _ _)
    have hrest : ∀ opt ∈ rest,
        f.impl (dictSet (dictSet kwargs param a) param opt) = Except.ok (g opt, dur opt) := by
      intro opt hm
      rw [dictSet_dictSet_same]
      exact hok opt (List.mem_cons_of_mem _ hm)
    obtain ⟨t2, h2⟩ := ih (dictSet kwargs param a) (tick + dur a) hrest
    exact ⟨t2, by simp [runMultiLoop, ha, h2]⟩

theorem runMultiLoop_err (f : PyFunction) (param : String) (e : PyError)
    (pre : List Value) (x : Value) (post : List Value)
    (kwargs : List (String × Value)) (tick : Nat)
    (hpre : ∀ opt ∈ pre, ∃ o d,
      f.impl (dictSet kwargs param opt) = Except.ok (o, d))
    (hx : f.impl (dictSet kwargs param x) = Except.error e) :
    runMultiLoop f param (pre ++ x :: post) kwargs tick = Except.error e := by
  induction pre generalizing kwargs tick with
  | nil => simp [runMultiLoop, hx]
  | cons a rest ih =>
    obtain ⟨o, d, ha⟩ := hpre a (List.mem_cons_self _ _)
    have hrest : ∀ opt ∈ rest, ∃ o d,
        f.impl (dictSet (dictSet kwargs param a) param opt) = Except.ok (o, d) := by
      intro opt hm
      rw [dictSet_dictSet_same]
      exact hpre opt (List.mem_cons_of_mem _ hm)
    have hx2 : f.impl (dictSet (dictSet kwargs param a) param x) = Except.error e := by
      rw [dictSet_dictSet_same]; exact hx
    simp [runMultiLoop, ha, ih _ _ hrest hx2]

/-- **C4.** For all non-negative integers `n` and `s`, the step-identifier
function `get_step_title_number` is deterministic and total (it is a Lean
function), `identifier(n, None)` equals the bare decimal string form of
`n`, and `identifier(n, s)` for positive `s` equals the dotted string
`n.s`. -/
theorem step_identifier_spec (n : Int) (_hn : 0 ≤ n) :
    get_step_title_number (Value.int n) none = toString n ∧
    ∀ s : Int, 0 < s →
      get_step_title_number (Value.int n) (some s) = toString n ++ "." ++ toString s := by
  constructor
  · simp [get_step_title_number, pyStr, pyRepr]
  · intro s hs
    have hne : s ≠ 0 := by omega
    simp [get_step_title_number, bne_iff_ne, hne, pyStr, pyRepr]

theorem step_identifier_spec_witness :
    (0 : Int) ≤ 3 ∧ (0 : Int) < 2 ∧
    get_step_title_number (Value.int 3) none = toString (3 : Int) ∧
    get_step_title_number (Value.int 3) (some 2) = toString (3 : Int) ++ "." ++ toString (2 : Int) :=
  ⟨by decide, by decide, (step_identifier_spec 3 (by decide)).1,
   (step_identifier_spec 3 (by decide)).2 2 (by decide)⟩

/-- **C5.** The step-identifier function collapses a substep number of 0
with an absent substep: `identifier(n, 0)` equals `identifier(n, None)`,
both yielding the bare string form of `n` (the `if substep_number:`
truthiness test treats `0` like `None`). -/
theorem step_identifier_zero_collapse (n : Int) (_hn : 0 ≤ n) :
    get_step_title_number (Value.int n) (some 0) = get_step_title_number (Value.int n) none ∧
    get_step_title_number (Value.int n) none = toString n := by
  constructor
  · simp [get_step_title_number]
  · simp [get_step_title_number, pyStr, pyRepr]

theorem step_identifier_zero_collapse_witness :
    (0 : Int) ≤ 7 ∧
    get_step_title_number (Value.int 7) (some 0) = get_step_title_number (Value.int 7) none ∧
    get_step_title_number (Value.int 7) none = toString (7 : Int) :=
  ⟨by decide, (step_identifier_zero_collapse 7 (by decide)).1,
   (step_identifier_zero_collapse 7 (by decide)).2⟩

/-- **C6.** For a step identifier absent from the registry, `run_step`
fails with a `KeyError` on `str(step_number)` (the spec's
`UnknownStepError`) and returns the pipeline state unchanged, so the
already-accumulated `RunLog.steps` mapping is untouched. -/
theorem run_step_unknown_step (st : PipelineState) (clock : Nat → Int) (tick : Nat)
    (step_number : Value)
    (habs : lookupStep st.steps_registry (Value.str (pyStr step_number)) = none) :
    Pipeline.run_step st clock tick step_number =
      (Except.error (PyError.keyError (Value.str (pyStr step_number))), st, tick) := by
  simp [Pipeline.run_step, habs]

theorem run_step_unknown_step_witness :
    lookupStep wEmptySt.steps_registry (Value.str (pyStr (Value.str "9"))) = none ∧
    Pipeline.run_step wEmptySt wClock 0 (Value.str "9") =
      (Except.error (PyError.keyError (Value.str (pyStr (Value.str "9")))), wEmptySt, 0) :=
  ⟨rfl, run_step_unknown_step wEmptySt wClock 0 (Value.str "9") rfl⟩

/-- **C1, counterexample.** For the fan-out step registered in
`fanoutSt` (with `multi_options = ["chr1", "chr2", "chr3"]` and
`multi_param = "locus"`), `run_step` returns the raw return values of
the invoked function — here the plain integer `42` three times — not
ActionLog records: the first returned entry has no `arguments` dict
mapping `"locus"` to `"chr1"`, contradicting the claim. -/
theorem run_step_fanout_counterexample :
    (Pipeline.run_step fanoutSt wClock 0 (Value.str "1")).1 =
      Except.ok [Value.int 42, Value.int 42, Value.int 42] ∧
    argumentsMapsTo (Value.int 42) "locus" (Value.str "chr1") = false :=
  ⟨rfl, rfl⟩

/-- **C1, amended.** For every fan-out step descriptor, `run_step`
produces exactly one entry per value of `multi_options`, in order, the
i-th entry being the invoked function's raw return value on the merged
keyword arguments with `multi_param` bound to the i-th option value
(the entries are not wrapped into ActionLogs and carry no `arguments`
field of their own). -/
theorem run_step_fanout_outputs (st : PipelineState) (clock : Nat → Int) (tick : Nat)
    (step_number : Value) (desc : StepDescriptor) (g : Value → Value) (dur : Value → Nat)
    (hlook : lookupStep st.steps_registry (Value.str (pyStr step_number)) = some desc)
    (hmulti : desc.is_multi = true)
    (hok : ∀ opt ∈ desc.multi_options,
      desc.function.impl (dictSet (mergedKwargs st) desc.multi_param opt) =
        Except.ok (g opt, dur opt)) :
    (Pipeline.run_step st clock tick step_number).1 =
      Except.ok (desc.multi_options.map g) := by
  obtain ⟨t2, h2⟩ := runMultiLoop_ok desc.function desc.multi_param g dur
    desc.multi_options (mergedKwargs st) tick hok
  simp [Pipeline.run_step, hlook, hmulti, h2]

theorem run_step_fanout_outputs_witness :
    (Pipeline.run_step fanoutSt wClock 0 (Value.str "1")).1 =
      Except.ok (fanoutDesc.multi_options.map (fun _ => Value.int 42)) :=
  run_step_fanout_outputs fanoutSt wClock 0 (Value.str "1") fanoutDesc
    (fun _ => Value.int 42) (fun _ => 0) rfl rfl (fun _ _ => rfl)

/-- **C10.** For every fan-out step descriptor, `run_step` leaves the
entire pipeline state — in particular `self.action_logs["steps"]` —
unchanged: fan-out results are only collected into the returned list,
and no entry is inserted under any bare or dotted identifier, whether
the iterations succeed or raise. -/
theorem run_step_fanout_frame (st : PipelineState) (clock : Nat → Int) (tick : Nat)
    (step_number : Value) (desc : StepDescriptor)
    (hlook : lookupStep st.steps_registry (Value.str (pyStr step_number)) = some desc)
    (hmulti : desc.is_multi = true) :
    (Pipeline.run_step st clock tick step_number).2.1 = st := by
  cases hr : runMultiLoop desc.function desc.multi_param desc.multi_options
      (mergedKwargs st) tick with
  | error e => simp [Pipeline.run_step, hlook, hmulti, hr]
  | ok p =>
    obtain ⟨items, t2⟩ := p
    simp [Pipeline.run_step, hlook, hmulti, hr]

theorem run_step_fanout_frame_witness :
    (Pipeline.run_step fanoutSt wClock 0 (Value.str "1")).2.1 = fanoutSt :=
  run_step_fanout_frame fanoutSt wClock 0 (Value.str "1") fanoutDesc rfl rfl

/-- **C2, counterexample.** In the singular-step scenario (registry key
`"1"`, non-fan-out descriptor, context supplying the template variable
`x`), `run_step("1")` does return exactly one action log, but its
`step` field is the string `"1"` — the identifier exactly as passed,
which `build_action_log` stores unconverted — and the string `"1"` is
not the integer `1`. -/
theorem run_step_single_counterexample :
    (Pipeline.run_step singleSt wClock 0 (Value.str "1")).1 =
      Except.ok [singleStepLog "generate_report" wClock 0 2 (Value.str "report done")] ∧
    getField (singleStepLog "generate_report" wClock 0 2 (Value.str "report done")) "step" =
      some (Value.str "1") ∧
    Value.str "1" ≠ Value.int 1 :=
  ⟨rfl, rfl, fun h => Value.noConfusion h⟩

/-- **C2, amended.** For a registry containing key `"1"` with a
non-fan-out descriptor and a context supplying the title-template
variables, `run_step("1")` returns exactly one action log whose `step`
field equals the string `"1"` (the identifier as passed, not the
integer `1`), whose `substep_number` and `arguments` are null, and
whose `action_output` equals the registered function's return value;
the log is inserted into `RunLog.steps` at key `"1"`. -/
theorem run_step_single_scenario (st : PipelineState) (clock : Nat → Int) (tick : Nat)
    (desc : StepDescriptor) (ttl : String) (out : Value) (d : Nat)
    (hlook : lookupStep st.steps_registry (Value.str "1") = some desc)
    (hmulti : desc.is_multi = false)
    (htitle : formatTemplate desc.title_template (mergedKwargs st) = Except.ok ttl)
    (hfn : desc.function.impl (mergedKwargs st) = Except.ok (out, d)) :
    Pipeline.run_step st clock tick (Value.str "1") =
      (Except.ok [singleStepLog desc.function.name clock tick d out],
       { st with action_log_steps :=
           dictSet st.action_log_steps "1" (singleStepLog desc.function.name clock tick d out) },
       tick + 1 + d + 1) := by
  have hkey : Value.str (pyStr (Value.str "1")) = Value.str "1" := rfl
  simp [Pipeline.run_step, Pipeline.run, Pipeline.build_action_log, get_step_title_number,
    hkey, hlook, hmulti, htitle, hfn, nameFalsy, optIntValue, pyStr, singleStepLog]

theorem run_step_single_scenario_witness :
    Pipeline.run_step singleSt wClock 0 (Value.str "1") =
      (Except.ok [singleStepLog singleDesc.function.name wClock 0 2 (Value.str "report done")],
       { singleSt with action_log_steps :=
           (dictSet singleSt.action_log_steps "1"
             (singleStepLog singleDesc.function.name wClock 0 2 (Value.str "report done"))) },
       4) :=
  run_step_single_scenario singleSt wClock 0 singleDesc "Step demo"
    (Value.str "report done") 2 rfl rfl rfl rfl

/-- **C3.** When the invoked step function raises — in the singular
branch after the title announcement, or in any fan-out iteration after
the preceding iterations succeeded — `run_step` propagates that very
exception uncaught, and the pipeline state is exactly as before the
call: no action log is recorded for the failed unit,
`RunLog.steps` is unchanged, and no log file is written (the recorded
file set is unchanged, and `finalise`, the only persistence point, is
never reached by `run_step`). -/
theorem run_step_raise_atomic (st : PipelineState) (clock : Nat → Int) (tick : Nat)
    (step_number : Value) (desc : StepDescriptor) (e : PyError)
    (hlook : lookupStep st.steps_registry (Value.str (pyStr step_number)) = some desc)
    (hfail :
      (desc.is_multi = false ∧
        (∃ descT ttl, lookupStep st.steps_registry step_number = some descT ∧
          formatTemplate descT.title_template (mergedKwargs st) = Except.ok ttl) ∧
        desc.function.impl (mergedKwargs st) = Except.error e) ∨
      (desc.is_multi = true ∧
        ∃ pre x post, desc.multi_options = pre ++ x :: post ∧
          (∀ opt ∈ pre, ∃ o dd,
            desc.function.impl (dictSet (mergedKwargs st) desc.multi_param opt) =
              Except.ok (o, dd)) ∧
          desc.function.impl (dictSet (mergedKwargs st) desc.multi_param x) =
            Except.error e)) :
    (Pipeline.run_step st clock tick step_number).1 = Except.error e ∧
    (Pipeline.run_step st clock tick step_number).2.1 = st ∧
    (Pipeline.run_step st clock tick step_number).2.1.files = st.files := by
  have hstate : (Pipeline.run_step st clock tick step_number).1 = Except.error e ∧
      (Pipeline.run_step st clock tick step_number).2.1 = st := by
    rcases hfail with ⟨hm, ⟨descT, ttl, hlookT, htitle⟩, himpl⟩ |
      ⟨hm, pre, x, post, hopts, hpre, hx⟩
    · have hrun : Pipeline.run st clock tick step_number none Value.null (mergedKwargs st) =
          Except.error e := by
        simp [Pipeline.run, hlookT, htitle, hlook, himpl]
      constructor <;> simp [Pipeline.run_step, hlook, hm, hrun]
    · have hloop := runMultiLoop_err desc.function desc.multi_param e pre x post
        (mergedKwargs st) tick hpre hx
      rw [← hopts] at hloop
      constructor <;> simp [Pipeline.run_step, hlook, hm, hloop]
  exact ⟨hstate.1, hstate.2, by rw [hstate.2]⟩

theorem run_step_raise_atomic_witness :
    (Pipeline.run_step failSt wClock 0 (Value.str "2")).1 =
      Except.error (PyError.userError "boom") ∧
    (Pipeline.run_step failSt wClock 0 (Value.str "2")).2.1 = failSt ∧
    (Pipeline.run_step failSt wClock 0 (Value.str "2")).2.1.files = failSt.files :=
  run_step_raise_atomic failSt wClock 0 (Value.str "2") failDesc
    (PyError.userError "boom") rfl
    (Or.inl ⟨rfl, ⟨failDesc, "Broken", rfl, rfl⟩, rfl⟩)

/-- **C8.** For every executed unit of work that yields an action log
(`run` routes every singular-step invocation through
`build_action_log`; fan-out iterations yield no action log at all),
`started_at` is the clock sample taken before the invocation and
`completed_at` the sample taken when the log is built, immediately
after the invocation returns; under a monotone clock the log therefore
satisfies `started_at <= completed_at`, with equality allowed. -/
theorem action_log_timestamps_ordered (st : PipelineState) (clock : Nat → Int) (tick : Nat)
    (step_number : Value) (substep_number : Option Int) (additional_args : Value)
    (kwargs : List (String × Value)) (title : String) (log : Value) (tick2 : Nat)
    (hrun : Pipeline.run st clock tick step_number substep_number additional_args kwargs =
      Except.ok (title, log, tick2))
    (hmono : ∀ a b : Nat, a ≤ b → clock a ≤ clock b) :
    ∃ s c : Int, getField log "started_at" = some (Value.int s) ∧
      getField log "completed_at" = some (Value.int c) ∧ s ≤ c := by
  unfold Pipeline.run at hrun
  cases h1 : lookupStep st.steps_registry step_number with
  | none => simp [h1] at hrun
  | some descT =>
    simp only [h1] at hrun
    cases h2 : formatTemplate descT.title_template kwargs with
    | error e => simp [h2] at hrun
    | ok ttl =>
      simp only [h2] at hrun
      cases h3 : lookupStep st.steps_registry (Value.str (pyStr step_number)) with
      | none => simp [h3] at hrun
      | some desc =>
        simp only [h3] at hrun
        cases h4 : desc.function.impl kwargs with
        | error e => simp [h4] at hrun
        | ok p =>
          obtain ⟨out, d⟩ := p
          simp only [h4] at hrun
          simp only [Pipeline.build_action_log, nameFalsy, h1, Except.ok.injEq,
            Prod.mk.injEq] at hrun
          obtain ⟨ht, hlog, htick⟩ := hrun
          refine ⟨clock tick, clock (tick + 1 + d), ?_, ?_, hmono _ _ (by omega)⟩
          · rfl
          · rfl

theorem action_log_timestamps_ordered_witness :
    ∃ s c : Int,
      getField (singleStepLog "generate_report" wClock 0 2 (Value.str "report done"))
        "started_at" = some (Value.int s) ∧
      getField (singleStepLog "generate_report" wClock 0 2 (Value.str "report done"))
        "completed_at" = some (Value.int c) ∧ s ≤ c :=
  action_log_timestamps_ordered singleSt wClock 0 (Value.str "1") none Value.null
    (mergedKwargs singleSt) "1"
    (singleStepLog "generate_report" wClock 0 2 (Value.str "report done")) 4 rfl
    (fun _ _ h => Int.ofNat_le.mpr h)

/-- **C7.** Whenever the run log is serializable, `finalise` returns it
and writes exactly one file whose path is the resolved log directory,
`/`, the repository name, `-`, the digest of the completion-timestamp
string (the `hashlib.sha256(...).hexdigest()` collaborator applied to
`completed_at`), and `.json`, and whose content is the run log
serialized by `json.dumps(..., sort_keys=True, indent=4)` — JSON with
every object's keys in sorted order and 4-space indentation. -/
theorem finalise_output_artifact (st : PipelineState) (dependencies : Value)
    (completed_at : String) (sha256hex : String → String) (content : String)
    (hser : json_dumps_sorted (Pipeline.finalLogs st dependencies completed_at) =
      some content) :
    Pipeline.finalise st dependencies completed_at sha256hex =
      Except.ok (Pipeline.finalLogs st dependencies completed_at,
        { st with files := st.files ++
            [(st.log_path ++ "/" ++ st.repository_name ++ "-" ++
                sha256hex completed_at ++ ".json", content)] }) := by
  simp [Pipeline.finalise, hser]

theorem finalise_output_artifact_witness :
    json_dumps_sorted (Pipeline.finalLogs wEmptySt Value.null "2024-01-02T03:04:05") =
      some wContent ∧
    Pipeline.finalise wEmptySt Value.null "2024-01-02T03:04:05" wHash =
      Except.ok (Pipeline.finalLogs wEmptySt Value.null "2024-01-02T03:04:05",
        { wEmptySt with files := wEmptySt.files ++
            [(wEmptySt.log_path ++ "/" ++ wEmptySt.repository_name ++ "-" ++
                wHash "2024-01-02T03:04:05" ++ ".json", wContent)] }) :=
  ⟨rfl, finalise_output_artifact wEmptySt Value.null "2024-01-02T03:04:05" wHash wContent rfl⟩

/-- **C9.** Starting from a filesystem on which none of the four base
folders exist, the folder bootstrap reports all four under
`folders_created` (with `folders_in_existence` empty) on its first run,
and all four under `folders_in_existence` (with `folders_created`
empty) on a second run over the resulting filesystem. -/
theorem folder_bootstrap_twice (fs : FS) (verbose : Bool)
    (h1 : "input" ∉ fs) (h2 : "output" ∉ fs) (h3 : "tmp" ∉ fs) (h4 : "log" ∉ fs) :
    (create_base_folder_structure fs verbose).1 =
      Value.obj
        [("folders_created", Value.list
            [Value.str "input", Value.str "output", Value.str "tmp", Value.str "log"]),
         ("folders_in_existence", Value.list []),
         ("completed_at", Value.null)] ∧
    (create_base_folder_structure (create_base_folder_structure fs verbose).2 verbose).1 =
      Value.obj
        [("folders_created", Value.list []),
         ("folders_in_existence", Value.list
            [Value.str "input", Value.str "output", Value.str "tmp", Value.str "log"]),
         ("completed_at", Value.null)] := by
  constructor
  · simp [create_base_folder_structure, createBaseFoldersGo, create_folder,
      appendToListKey, List.mem_append, h1, h2, h3, h4]
  · simp [create_base_folder_structure, createBaseFoldersGo, create_folder,
      appendToListKey, List.mem_append, h1, h2, h3, h4]

theorem folder_bootstrap_twice_witness :
    (create_base_folder_structure [] false).1 =
      Value.obj
        [("folders_created", Value.list
            [Value.str "input", Value.str "output", Value.str "tmp", Value.str "log"]),
         ("folders_in_existence", Value.list []),
         ("completed_at", Value.null)] ∧
    (create_base_folder_structure (create_base_folder_structure [] false).2 false).1 =
      Value.obj
        [("folders_created", Value.list []),
         ("folders_in_existence", Value.list
            [Value.str "input", Value.str "output", Value.str "tmp", Value.str "log"]),
         ("completed_at", Value.null)] :=
  folder_bootstrap_twice [] false (by simp) (by simp) (by simp) (by simp)
